import Mathlib

/--
Shallow embedding of `app/scripts/contentscript.js` (MetaMask content script):
the activation gate (`shouldInjectProvider` and its four checks), the stream
setup performed by `setupStreams`, the onboarding sink (`addCurrentTab`), the
phishing one-shot sink and the phishing redirect target. Browser globals
(`window.document`, `window.location`) are passed as explicit records, and the
behaviour of the stream libraries (`pump`, `EventEmitter.once`) at the exact
call sites used by the source is modelled as explicit state machines.
-/
def contentscriptSourceFile : String := "app/scripts/contentscript.js"

/-- Model of the fields of `window.document` read by the source: the doctype
name when a doctype node exists, and `document.documentElement.nodeName`. -/
structure DomDoc where
  doctype : Option String
  documentElementNodeName : String
deriving DecidableEq

/-- Model of the fields of `window.location` read by the source. -/
structure DomLocation where
  href : String
  pathname : String
  hostname : String
deriving DecidableEq

/-- Suffix test on strings (embeds the JavaScript regexes of the form
`/\.xml$/`, which with no `m` flag match only at the very end of the string):
`t` must be a suffix of `s`. -/
def strEndsWith (s t : String) : Bool :=
  t.data.reverse.isPrefixOf s.data.reverse

/-- Embeds `String.prototype.toLowerCase` as used on ASCII tag names. -/
def strToLower (s : String) : String :=
  ⟨s.data.map Char.toLower⟩

/-- Embeds `doctypeCheck` (contentscript.js lines 178-185): true when the
document has no doctype, or when the doctype name is exactly `"html"`. -/
def doctypeCheck (doc : DomDoc) : Bool :=
  match doc.doctype with
  | some name => name == "html"
  | none => true

/-- Embeds `suffixCheck` (contentscript.js lines 196-208): loops over the
prohibited path suffixes `.xml` and `.pdf` and returns false when
`window.location.pathname` matches one of them. -/
def suffixCheck (pathname : String) : Bool :=
  let prohibitedTypes : List String := [".xml", ".pdf"]
  !(prohibitedTypes.any fun t => strEndsWith pathname t)

/-- Embeds `documentElementCheck` (contentscript.js lines 215-221): when
`document.documentElement.nodeName` is truthy (non-empty), its lower-casing
must be `"html"`; otherwise true. -/
def documentElementCheck (doc : DomDoc) : Bool :=
  let documentElement := doc.documentElementNodeName
  if !(documentElement == "") then strToLower documentElement == "html"
  else true

/-- The fixed deny-list of `blacklistedDomainCheck`
(contentscript.js lines 229-240), verbatim. -/
def blacklistedDomains : List String :=
  [ "uscourts.gov",
    "dropbox.com",
    "webbyawards.com",
    "cdn.shopify.com/s/javascripts/tricorder/xtld-read-only-frame.html",
    "adyen.com",
    "gravityforms.com",
    "harbourair.com",
    "ani.gamer.com.tw",
    "blueskybooking.com",
    "sharefile.com" ]

/-- Whether a character is matched by the JavaScript regex metacharacter `.`
(any character except a line terminator). -/
def regexDotOk (c : Char) : Bool :=
  !(c == '\n' || c == '\r' || c.toNat == 8232 || c.toNat == 8233)

/-- Translation of one deny-list entry into the pattern it denotes inside the
regex `(?:https?:\/\/)(?:(?!ENTRY).)*$` built by `blacklistedDomainCheck`
line 244: `entry.replace('.', '\\.')` escapes only the FIRST dot (JavaScript
`String.replace` with a string argument replaces the first occurrence), so the
first dot of the entry is a literal dot (`some '.'`) while every later dot
stays a regex wildcard (`none`); all other characters are literals. -/
def domainPatternAux : Bool → List Char → List (Option Char)
  | _, [] => []
  | seenDot, c :: cs =>
    if c = '.' then
      if seenDot then none :: domainPatternAux true cs
      else some '.' :: domainPatternAux true cs
    else some c :: domainPatternAux seenDot cs

/-- Pattern denoted by a deny-list entry inside the built regex. -/
def domainPattern (d : String) : List (Option Char) :=
  domainPatternAux false d.data

/-- Does the pattern match a prefix of the character list (literal characters
by equality, wildcards by `regexDotOk`)? -/
def prefMatch : List (Option Char) → List Char → Bool
  | [], _ => true
  | _ :: _, [] => false
  | p :: ps, c :: cs =>
    (match p with
     | some a => a == c
     | none => regexDotOk c) && prefMatch ps cs

/-- True when the pattern matches at no position of the list (the negative
lookahead `(?!ENTRY)` succeeds at every position). -/
def noOccur (pat : List (Option Char)) : List Char → Bool
  | [] => true
  | c :: cs => !(prefMatch pat (c :: cs)) && noOccur pat cs

/-- All characters are matched by the regex `.` metacharacter. -/
def allDot (s : List Char) : Bool :=
  s.all regexDotOk

/-- Whether the regex tail `(?:(?!ENTRY).)*$` accepts the remaining
characters `t`: every character is consumed by `(?!ENTRY).`, which requires
the lookahead to succeed and the character to be a `.` match, and `$` (no `m`
flag) requires consuming up to the very end of the string. -/
def tailAccepts (pat : List (Option Char)) (t : List Char) : Bool :=
  allDot t && noOccur pat t

/-- Embeds `currentRegex.test(currentUrl)` for the regex
`(?:https?:\/\/)(?:(?!ENTRY).)*$` of `blacklistedDomainCheck` line 245: the
regex is unanchored, so the test succeeds iff at some position the scheme
`http://` or `https://` matches and the tail is accepted from the character
after the scheme. -/
def regexTest (pat : List (Option Char)) (s : List Char) : Bool :=
  (List.range (s.length + 1)).any fun i =>
    if ("https://".data).isPrefixOf (s.drop i) then tailAccepts pat ((s.drop i).drop 8)
    else if ("http://".data).isPrefixOf (s.drop i) then tailAccepts pat ((s.drop i).drop 7)
    else false

/-- Embeds `blacklistedDomainCheck` (contentscript.js lines 228-251): for each
deny-list entry, build the regex above and test it against
`window.location.href`; return true (blacklisted) as soon as one regex fails
to match, false when every regex matches. -/
def blacklistedDomainCheck (href : String) : Bool :=
  blacklistedDomains.any fun d => !(regexTest (domainPattern d) href.data)

/-- Embeds `shouldInjectProvider` (contentscript.js lines 168-171). -/
def shouldInjectProvider (doc : DomDoc) (loc : DomLocation) : Bool :=
  doctypeCheck doc && suffixCheck loc.pathname &&
    documentElementCheck doc && !(blacklistedDomainCheck loc.href)

/-- Substring test used to state facts about URLs that carry no `http://` or
`https://` scheme: does `pat` occur as a contiguous run inside the list? -/
def containsSeq (pat : List Char) : List Char → Bool
  | [] => pat.isEmpty
  | c :: cs => pat.isPrefixOf (c :: cs) || containsSeq pat cs

/-- Intended deny-list semantics, stated for a refinement comparison with
`blacklistedDomainCheck`. Follows the spec's words: blocked iff the URL's
origin exactly equals or is a subdomain of some deny-list entry. -/
def originMatchesDenyEntry (origin entry : String) : Bool :=
  origin == entry || strEndsWith origin ("." ++ entry)

/-- Intended deny-list decision over the fixed deny-list, per the spec's
words: any single entry whose domain contains the origin suppresses
activation. -/
def intendedDenyListBlocked (origin : String) : Bool :=
  blacklistedDomains.any fun entry => originMatchesDenyEntry origin entry

/-- Which of the two multiplexers of `setupStreams` a step refers to:
`pageMux` wraps the page transport (`pageStream`), `extMux` wraps the
extension transport (`extensionStream`). -/
inductive MuxSide where
  | page
  | ext
deriving DecidableEq

/-- One wiring action performed during `setupStreams`
(contentscript.js lines 60-136), in source order. -/
inductive SetupStep where
  | createPageStream
  | createExtensionStream
  | createMux (side : MuxSide)
  | pumpMuxTransport (side : MuxSide)
  | createChannel (side : MuxSide) (name : String)
  | bindOnboardingSink (side : MuxSide) (name : String)
  | forwardPump (name : String)
  | bindPhishingOnce (side : MuxSide) (name : String)
deriving DecidableEq

/-- Embeds `forwardTrafficBetweenMuxers` (contentscript.js lines 138-147) as
the wiring steps it performs: create the named channel on each multiplexer,
then pump them into each other. -/
def forwardTrafficBetweenMuxers (channelName : String) (muxA muxB : MuxSide) : List SetupStep :=
  [.createChannel muxA channelName, .createChannel muxB channelName, .forwardPump channelName]

/-- The channel names forwarded between the two multiplexers, in call order
(contentscript.js lines 129-131). -/
def forwardedChannelNames : List String :=
  ["provider", "publicConfig", "cap"]

/-- Embeds the wiring performed by `setupStreams`
(contentscript.js lines 60-136), statement by statement: page stream (62),
extension stream (67-68), the two multiplexers (72, 74), their transport pumps
(77, 83), the onboarding channel created on `pageMux` and pumped into
`addCurrentTab` (90, 122-126), the three forwarded channels (129-131), and the
phishing channel created on `extensionMux` with a one-shot data handler
(134-135). -/
def setupStreams : List SetupStep :=
  [.createPageStream, .createExtensionStream,
   .createMux .page, .createMux .ext,
   .pumpMuxTransport .page, .pumpMuxTransport .ext,
   .createChannel .page "onboarding",
   .bindOnboardingSink .page "onboarding"] ++
  forwardTrafficBetweenMuxers "provider" .page .ext ++
  forwardTrafficBetweenMuxers "publicConfig" .page .ext ++
  forwardTrafficBetweenMuxers "cap" .page .ext ++
  [.createChannel .ext "phishing",
   .bindPhishingOnce .ext "phishing"]

/-- Position of a wiring step inside `setupStreams`. -/
def stepIndex (step : SetupStep) : Nat :=
  setupStreams.findIdx fun s => s == step

/-- An onboarding message as consumed by the `addCurrentTab` writable sink:
an object carrying a `type` field. -/
structure OnboardingMsg where
  type : String
deriving DecidableEq

/-- The message handed to `extension.runtime.sendMessage` by the onboarding
sink. -/
structure SentMessage where
  type : String
  location : String
deriving DecidableEq

/-- Outcome of one `write` of the `addCurrentTab` sink. `callbackError` is a
failure handed to the stream completion callback, `sendRegisterOnboarding` is
the external registration call, and `thrown` would be an exception escaping
the write function (the source's try/catch turns every throw into a callback
report, so this outcome is never produced). -/
inductive WriteOutcome where
  | callbackError (msg : String)
  | sendRegisterOnboarding (m : SentMessage)
  | thrown (msg : String)
deriving DecidableEq

/-- The message of the `new Error('Malformed onboarding message')` raised for
an empty chunk (contentscript.js line 95). -/
def malformedOnboardingMessage : String := "Malformed onboarding message"

/-- The message of the error thrown for an unknown message type
(contentscript.js line 113). -/
def unrecognizedOnboardingMessage (t : String) : String :=
  "Unrecognized onboarding message type: \x27" ++ t ++ "\x27"

/-- Embeds the body of the `try` block of `addCurrentTab`
(contentscript.js lines 109-114): dispatch on `chunk.type`, either sending the
registration message with the current location or throwing. -/
def addCurrentTabWriteBody (locationHref : String) (c : OnboardingMsg) : Except String SentMessage :=
  if c.type == "registerOnboarding" then
    Except.ok ⟨"metamask:registerOnboarding", locationHref⟩
  else
    Except.error (unrecognizedOnboardingMessage c.type)

/-- Embeds the `write` function of the `addCurrentTab` writable sink
(contentscript.js lines 93-119): a falsy chunk fails the callback with the
malformed-message error; otherwise the try/catch around the dispatch reports
any thrown error to the callback instead of letting it escape. -/
def addCurrentTabWrite (locationHref : String) (chunk : Option OnboardingMsg) : WriteOutcome :=
  match chunk with
  | none => .callbackError malformedOnboardingMessage
  | some c =>
    match addCurrentTabWriteBody locationHref c with
    | .ok m => .sendRegisterOnboarding m
    | .error e => .callbackError e

/-- The external registration calls performed by one `write` of the
onboarding sink. -/
def sentMessages (locationHref : String) (chunk : Option OnboardingMsg) : List SentMessage :=
  match addCurrentTabWrite locationHref chunk with
  | .sendRegisterOnboarding m => [m]
  | _ => []

/-- Embeds `handleSendMessageResponse` (contentscript.js lines 98-107): the
value handed to the stream callback after the registration call responds
(`none` is a success acknowledgement). -/
def handleSendMessageResponse (error : Option String) (success : Bool)
    (lastError : Option String) : Option String :=
  if error.isNone && !success then lastError else error

/-- State of the onboarding pipeline wired by
`pump(onboardingStream, addCurrentTab, ...)` (contentscript.js lines
122-126): whether the onboarding channel has been destroyed (and with which
error), the values reported to the pipe's completion handler, and the
registration calls performed so far. The multiplexer is not part of this
pump pipeline. -/
structure OnboardingPipeState where
  channelDestroyed : Option String
  handlerReports : List (Option String)
  sent : List SentMessage
deriving DecidableEq

/-- Consumes one chunk through the onboarding pipeline: once the pipeline has
terminated, pump has destroyed the onboarding channel, so no further chunk is
delivered; otherwise the sink's write runs, and a failure handed to the write
callback emits an error on the sink, whereupon pump — under the same
termination contract modelled by `forwarderStep` — destroys the paired
onboarding channel and invokes the completion handler once. A successful
dispatch leaves the pipeline alive (the asynchronous response of the
registration call is handled later by `handleSendMessageResponse` and is
outside this step). -/
def onboardingPipeStep (locationHref : String) (s : OnboardingPipeState)
    (chunk : Option OnboardingMsg) : OnboardingPipeState :=
  if s.channelDestroyed.isSome then s
  else
    match addCurrentTabWrite locationHref chunk with
    | .callbackError e => ⟨some e, s.handlerReports ++ [some e], s.sent⟩
    | .sendRegisterOnboarding m => ⟨none, s.handlerReports, s.sent ++ [m]⟩
    | .thrown e => ⟨some e, s.handlerReports, s.sent⟩

/-- Runs the onboarding pipeline over a sequence of incoming chunks, in
arrival order. -/
def runOnboardingPipe (locationHref : String) (chunks : List (Option OnboardingMsg)) :
    OnboardingPipeState :=
  chunks.foldl (onboardingPipeStep locationHref) ⟨none, [], []⟩

/-- Which of the two channels of one forwarder pairing an event concerns
(`channelA` lives on `muxA`, `channelB` on `muxB`). -/
inductive ChanEnd where
  | chanA
  | chanB
deriving DecidableEq

/-- The paired channel of a forwarder end. -/
def otherEnd : ChanEnd → ChanEnd
  | .chanA => .chanB
  | .chanB => .chanA

/-- State of one forwarder pairing's termination machinery: whether the
pairing already terminated, which paired channel was ended the same way (with
the same error payload, `none` meaning a graceful close), and the values
passed to the caller-supplied completion handler. -/
structure ForwarderState where
  finished : Bool
  endedSameWay : Option (ChanEnd × Option String)
  reports : List (Option String)
deriving DecidableEq

/-- Initial forwarder pairing state. -/
def forwarderInit : ForwarderState := ⟨false, none, []⟩

/-- Models the termination behaviour of the single
`pump(channelA, channelB, channelA, cb)` call of
`forwardTrafficBetweenMuxers` (contentscript.js lines 141-146): on the first
close or error of either channel, pump destroys the paired channel the same
way and invokes the completion callback once; pump guards against repeated
completion, so later events are ignored. -/
def forwarderStep (s : ForwarderState) (e : ChanEnd × Option String) : ForwarderState :=
  if s.finished then s
  else ⟨true, some (otherEnd e.1, e.2), s.reports ++ [e.2]⟩

/-- Runs a forwarder pairing over a sequence of close/error events. -/
def runForwarder (events : List (ChanEnd × Option String)) : ForwarderState :=
  events.foldl forwarderStep forwarderInit

/-- Embeds `logStreamDisconnectWarning` (contentscript.js lines 155-161): the
warning line logged when a pairing or sink reports a terminal error. -/
def logStreamDisconnectWarning (remoteLabel : String) (err : Option String) : String :=
  let warningMsg := "MetamaskContentscript - lost connection to " ++ remoteLabel
  match err with
  | some stack => warningMsg ++ "\n" ++ stack
  | none => warningMsg

/-- Characters left unescaped by the `encodeURIComponent`-style escaping of
`querystring.stringify`. -/
def unreservedChar (c : Char) : Bool :=
  c.isAlphanum || c == '-' || c == '_' || c == '.' || c == '!' ||
    c == '~' || c == '*' || c == '\x27' || c == '(' || c == ')'

/-- UTF-8 bytes of a character, as percent-encoded by the query escaping. -/
def utf8Bytes (c : Char) : List Nat :=
  let n := c.toNat
  if n < 128 then [n]
  else if n < 2048 then [192 + n / 64, 128 + n % 64]
  else if n < 65536 then [224 + n / 4096, 128 + n / 64 % 64, 128 + n % 64]
  else [240 + n / 262144, 128 + n / 4096 % 64, 128 + n / 64 % 64, 128 + n % 64]

/-- Upper-case hexadecimal digit. -/
def hexDigit (n : Nat) : Char :=
  if n < 10 then Char.ofNat (48 + n) else Char.ofNat (55 + n)

/-- Percent-encoding of one byte. -/
def percentByte (b : Nat) : List Char :=
  ['%', hexDigit (b / 16), hexDigit (b % 16)]

/-- Escaping of one character by `querystring.stringify`. -/
def qsEscapeChar (c : Char) : List Char :=
  if unreservedChar c then [c] else ((utf8Bytes c).map percentByte).flatten

/-- Embeds the escape function of `querystring.stringify`. -/
def qsEscape (s : String) : String :=
  ⟨(s.data.map qsEscapeChar).flatten⟩

/-- Embeds `querystring.stringify` on an ordered list of key/value pairs:
`key=value` pairs joined with `&`, keys and values escaped. -/
def qsStringify : List (String × String) → String
  | [] => ""
  | (k, v) :: [] => qsEscape k ++ "=" ++ qsEscape v
  | (k, v) :: p :: rest => qsEscape k ++ "=" ++ qsEscape v ++ "&" ++ qsStringify (p :: rest)

/-- Embeds `redirectToPhishingWarning` (contentscript.js lines 256-263): the
URL assigned to `window.location.href`, built from the extension resource URL
of `phishing.html` (obtained from the opaque `extension.runtime.getURL`)
followed by `#` and the stringified `hostname` and `href` pairs. -/
def redirectToPhishingWarning (getURL : String → String) (loc : DomLocation) : String :=
  let extensionURL := getURL "phishing.html"
  extensionURL ++ "#" ++ qsStringify [("hostname", loc.hostname), ("href", loc.href)]

/-- Split a character list at the first occurrence of `c`: the part before it
and the part after it (the whole list and an empty remainder when `c` does
not occur). -/
def splitAtChar (c : Char) : List Char → List Char × List Char
  | [] => ([], [])
  | x :: xs =>
    if x = c then ([], xs)
    else
      let r := splitAtChar c xs
      (x :: r.1, r.2)

/-- Modelled from the spec: the query-parameter component of a URL, the text
between the first `?` and the fragment, empty when the URL has no `?` before
its fragment. Used to compare where the redirect target actually carries its
parameters. -/
def urlQueryPart (u : String) : List Char :=
  let beforeHash := (splitAtChar '#' u.data).1
  if '?' ∈ beforeHash then (splitAtChar '?' beforeHash).2 else []

/-- Models `phishingStream.once('data', handler)`
(contentscript.js line 135) through the `EventEmitter.once` contract: the
listener is removed right before its first invocation, so it consumes exactly
the first event of the channel. -/
def onceData {α : Type} (events : List α) : List α :=
  match events with
  | [] => []
  | e :: _ => [e]

/-- The redirect navigations performed by the phishing sink for a sequence of
incoming messages: the one-shot handler ignores the payload and redirects to
the phishing warning page. -/
def phishingRedirectInvocations {α : Type} (getURL : String → String) (loc : DomLocation)
    (events : List α) : List String :=
  (onceData events).map fun _ => redirectToPhishingWarning getURL loc

/-! Helper lemmas shared by the claim theorems. -/

theorem strData_append (s t : String) : (s ++ t).data = s.data ++ t.data := by
  cases s; cases t; rfl

theorem splitAtChar_append (c : Char) (a b : List Char) (h : c ∉ a) :
    splitAtChar c (a ++ c :: b) = (a, b) := by
  induction a with
  | nil => simp [splitAtChar]
  | cons x xs ih =>
    have hx : ¬ x = c := fun hc => h (hc ▸ List.mem_cons_self x xs)
    have hxs : c ∉ xs := fun hc => h (List.mem_cons_of_mem x hc)
    simp [splitAtChar, hx, ih hxs]

theorem containsSeq_eq_false (pat : List Char) :
    ∀ s : List Char, containsSeq pat s = false →
      ∀ i, pat.isPrefixOf (s.drop i) = false := by
  intro s
  induction s with
  | nil =>
    intro h i
    simp only [containsSeq] at h
    rw [List.drop_nil]
    cases pat with
    | nil => simp at h
    | cons a as => rfl
  | cons c cs ih =>
    intro h i
    simp only [containsSeq, Bool.or_eq_false_iff] at h
    cases i with
    | zero => exact h.1
    | succ n => exact ih h.2 n

theorem regexTest_eq_false (s : List Char)
    (h1 : containsSeq "http://".data s = false)
    (h2 : containsSeq "https://".data s = false) :
    ∀ pat, regexTest pat s = false := by
  intro pat
  have p1 := containsSeq_eq_false _ _ h1
  have p2 := containsSeq_eq_false _ _ h2
  unfold regexTest
  rw [List.any_eq_false]
  intro i _
  simp [p1 i, p2 i]

theorem foldl_forwarderStep_fixed (l : List (ChanEnd × Option String)) (s : ForwarderState)
    (h : s.finished = true) : l.foldl forwarderStep s = s := by
  induction l with
  | nil => rfl
  | cons e es ih =>
    have hstep : forwarderStep s e = s := by simp [forwarderStep, h]
    rw [List.foldl_cons, hstep]
    exact ih

theorem foldl_onboardingPipeStep_fixed (locationHref : String)
    (l : List (Option OnboardingMsg)) (s : OnboardingPipeState)
    (h : s.channelDestroyed.isSome = true) :
    l.foldl (onboardingPipeStep locationHref) s = s := by
  induction l with
  | nil => rfl
  | cons e es ih =>
    have hstep : onboardingPipeStep locationHref s e = s := by
      simp [onboardingPipeStep, h]
    rw [List.foldl_cons, hstep]
    exact ih

/-! Claim theorems. -/

/--
C1: the claim states that the deny-list check blocks activation iff the URL's
origin exactly equals or is a subdomain of some deny-list entry, and that the
result depends only on the URL's origin. The code contradicts this (and its
own doc comment, which says it checks the current domain): the regex
`(?:https?:\/\/)(?:(?!ENTRY).)*$` fails — and the loop reports blacklisted —
whenever the entry occurs anywhere after the scheme, including in the path.
At `https://example.com/files/dropbox.com` the origin `example.com` matches no
deny-list entry under the intended semantics, yet `blacklistedDomainCheck`
returns true because `dropbox.com` occurs in the path.
-/
theorem blacklistedDomainCheck_flags_path_occurrence :
    blacklistedDomainCheck "https://example.com/files/dropbox.com" = true ∧
    intendedDenyListBlocked "example.com" = false := by
  constructor <;> decide

/--
C2 (counterexample to the claim as stated): `setupStreams` never creates an
`onboarding` channel on the extension-side multiplexer and never binds the
onboarding sink there; the binding the claim attributes to the extension-side
multiplexer is in fact on the page-side one (contentscript.js line 90:
`pageMux.createStream('onboarding')`).
-/
theorem onboarding_channel_not_on_extension_mux :
    SetupStep.bindOnboardingSink MuxSide.ext "onboarding" ∉ setupStreams ∧
    SetupStep.createChannel MuxSide.ext "onboarding" ∉ setupStreams ∧
    SetupStep.bindOnboardingSink MuxSide.page "onboarding" ∈ setupStreams := by
  constructor
  · decide
  constructor <;> decide

/--
C2 (amended): the onboarding sink is bound to the page-side multiplexer's
`onboarding` channel — the only onboarding-sink binding and the only
`onboarding` channel creation in `setupStreams` are on the multiplexer
wrapping the page transport.
-/
theorem onboarding_channel_on_page_mux :
    setupStreams.filter (fun s => match s with
      | SetupStep.bindOnboardingSink _ _ => true
      | _ => false) = [SetupStep.bindOnboardingSink MuxSide.page "onboarding"] ∧
    setupStreams.filter (fun s => match s with
      | SetupStep.createChannel _ n => n == "onboarding"
      | _ => false) = [SetupStep.createChannel MuxSide.page "onboarding"] := by
  constructor <;> decide

/--
C3 (counterexample to the claim as stated): the redirect target does not
carry `hostname` and `href` as query parameters — at a concrete location the
target's query-parameter component is empty, because `redirectToPhishingWarning`
attaches the stringified pairs after a `#`, in the fragment.
-/
theorem phishing_redirect_params_not_in_query :
    urlQueryPart (redirectToPhishingWarning (fun p => "chrome-extension://abcdefgh/" ++ p)
      ⟨"https://evil.com/x", "/x", "evil.com"⟩) = [] ∧
    redirectToPhishingWarning (fun p => "chrome-extension://abcdefgh/" ++ p)
      ⟨"https://evil.com/x", "/x", "evil.com"⟩ =
      "chrome-extension://abcdefgh/phishing.html#hostname=evil.com&href=https%3A%2F%2Fevil.com%2Fx" := by
  constructor <;> decide

/--
C3 (amended): when the phishing redirect fires, the redirect target is the
extension's phishing warning page (the fixed local resource `phishing.html`)
followed by the current document's `hostname` and `href` encoded as
querystring-format `key=value` parameters carried in the URL fragment after
`#`: splitting the target at its first `#` yields exactly the fixed resource
URL and the stringified pairs.
-/
theorem phishing_redirect_target_structure (getURL : String → String) (loc : DomLocation)
    (h : '#' ∉ (getURL "phishing.html").data) :
    splitAtChar '#' (redirectToPhishingWarning getURL loc).data =
      ((getURL "phishing.html").data,
       (qsStringify [("hostname", loc.hostname), ("href", loc.href)]).data) := by
  unfold redirectToPhishingWarning
  rw [strData_append, strData_append]
  have hh : ("#" : String).data = ['#'] := rfl
  rw [hh, List.append_assoc, List.singleton_append]
  exact splitAtChar_append _ _ _ h

/-- Witness for C3's amended theorem at a concrete extension base URL and
location. -/
theorem phishing_redirect_target_structure_witness :
    splitAtChar '#' (redirectToPhishingWarning (fun p => "chrome-extension://abcdefgh/" ++ p)
      ⟨"https://evil.com/x", "/x", "evil.com"⟩).data =
      (("chrome-extension://abcdefgh/phishing.html" : String).data,
       ("hostname=evil.com&href=https%3A%2F%2Fevil.com%2Fx" : String).data) :=
  (phishing_redirect_target_structure (fun p => "chrome-extension://abcdefgh/" ++ p)
    ⟨"https://evil.com/x", "/x", "evil.com"⟩ (by decide)).trans (by decide)

/--
C4 (counterexample to the claim as stated): a failure reported by the
onboarding sink does terminate the owning channel. With a null first chunk,
the malformed-message error handed to the write callback makes pump destroy
the onboarding channel, and a `registerOnboarding` message arriving after
such a failure is never delivered, so the registration call never happens.
-/
theorem onboarding_failure_destroys_channel :
    (runOnboardingPipe "https://dapp.example/" [none]).channelDestroyed =
      some malformedOnboardingMessage ∧
    (runOnboardingPipe "https://dapp.example/"
      [none, some ⟨"registerOnboarding"⟩]).sent = [] := by
  constructor <;> decide

/--
C4 (amended): for every message consumed by the onboarding sink, an
empty/null chunk fails the completion callback with the malformed-message
error; a chunk of type `registerOnboarding` invokes the external registration
call exactly once, carrying the current document location; any other type
fails the callback with the unrecognized-type error and never invokes the
registration call; no write ever lets an exception escape — every failure is
reported to the sink's completion callback instead of thrown. However, a
reported failure terminates the owning onboarding channel: pump destroys the
channel the first time the sink errors, reports the error exactly once to the
onboarding pipe's completion handler, and delivers no further message. The
owning multiplexer is not part of that pump pipeline and is not terminated.
-/
theorem addCurrentTab_message_handling (loc : String) :
    (addCurrentTabWrite loc none = WriteOutcome.callbackError malformedOnboardingMessage ∧
     sentMessages loc none = []) ∧
    (∀ c : OnboardingMsg, c.type = "registerOnboarding" →
       addCurrentTabWrite loc (some c) =
         WriteOutcome.sendRegisterOnboarding ⟨"metamask:registerOnboarding", loc⟩ ∧
       sentMessages loc (some c) = [⟨"metamask:registerOnboarding", loc⟩]) ∧
    (∀ c : OnboardingMsg, c.type ≠ "registerOnboarding" →
       addCurrentTabWrite loc (some c) =
         WriteOutcome.callbackError (unrecognizedOnboardingMessage c.type) ∧
       sentMessages loc (some c) = []) ∧
    (∀ (chunk : Option OnboardingMsg) (msg : String),
       addCurrentTabWrite loc chunk ≠ WriteOutcome.thrown msg) ∧
    (∀ (chunk : Option OnboardingMsg) (msg : String) (more : List (Option OnboardingMsg)),
       addCurrentTabWrite loc chunk = WriteOutcome.callbackError msg →
       (runOnboardingPipe loc (chunk :: more)).channelDestroyed = some msg ∧
       (runOnboardingPipe loc (chunk :: more)).handlerReports = [some msg] ∧
       (runOnboardingPipe loc (chunk :: more)).sent = []) ∧
    (∀ c : OnboardingMsg, c.type = "registerOnboarding" →
       (runOnboardingPipe loc [some c]).channelDestroyed = none) := by
  refine ⟨⟨rfl, rfl⟩, ?_, ?_, ?_, ?_, ?_⟩
  · intro c h
    constructor <;> simp [addCurrentTabWrite, addCurrentTabWriteBody, sentMessages, h]
  · intro c h
    have hb : (c.type == "registerOnboarding") = false := by
      simpa using h
    constructor <;> simp [addCurrentTabWrite, addCurrentTabWriteBody, sentMessages, hb]
  · intro chunk msg
    cases chunk with
    | none => simp [addCurrentTabWrite]
    | some c =>
      cases hbody : addCurrentTabWriteBody loc c <;>
        simp [addCurrentTabWrite, hbody]
  · intro chunk msg more h
    have hstep : onboardingPipeStep loc ⟨none, [], []⟩ chunk = ⟨some msg, [some msg], []⟩ := by
      simp [onboardingPipeStep, h]
    unfold runOnboardingPipe
    rw [List.foldl_cons, hstep,
      foldl_onboardingPipeStep_fixed loc more ⟨some msg, [some msg], []⟩ rfl]
    exact ⟨rfl, rfl, rfl⟩
  · intro c h
    simp [runOnboardingPipe, onboardingPipeStep, addCurrentTabWrite, addCurrentTabWriteBody, h]

/-- Witness for C4's amended theorem at a concrete location and concrete
messages of each shape, including the channel-terminating failure and the
channel-preserving success. -/
theorem addCurrentTab_message_handling_witness :
    addCurrentTabWrite "https://dapp.example/" (some ⟨"registerOnboarding"⟩) =
      WriteOutcome.sendRegisterOnboarding ⟨"metamask:registerOnboarding", "https://dapp.example/"⟩ ∧
    addCurrentTabWrite "https://dapp.example/" (some ⟨"swap"⟩) =
      WriteOutcome.callbackError (unrecognizedOnboardingMessage "swap") ∧
    addCurrentTabWrite "https://dapp.example/" none =
      WriteOutcome.callbackError malformedOnboardingMessage ∧
    (runOnboardingPipe "https://dapp.example/" [none]).channelDestroyed =
      some malformedOnboardingMessage ∧
    (runOnboardingPipe "https://dapp.example/"
      [some ⟨"registerOnboarding"⟩]).channelDestroyed = none :=
  ⟨((addCurrentTab_message_handling "https://dapp.example/").2.1 ⟨"registerOnboarding"⟩ rfl).1,
   ((addCurrentTab_message_handling "https://dapp.example/").2.2.1 ⟨"swap"⟩ (by decide)).1,
   (addCurrentTab_message_handling "https://dapp.example/").1.1,
   ((addCurrentTab_message_handling "https://dapp.example/").2.2.2.2.1 none
     malformedOnboardingMessage [] rfl).1,
   (addCurrentTab_message_handling "https://dapp.example/").2.2.2.2.2
     ⟨"registerOnboarding"⟩ rfl⟩

/--
C5: the phishing-notice sink is one-shot — for every sequence of two or more
messages arriving on the phishing channel, the redirect handler is invoked
exactly once, for the first message only, and all further messages are
ignored.
-/
theorem phishing_sink_one_shot {α : Type} (getURL : String → String) (loc : DomLocation)
    (m1 m2 : α) (rest : List α) :
    phishingRedirectInvocations getURL loc (m1 :: m2 :: rest) =
      [redirectToPhishingWarning getURL loc] ∧
    (phishingRedirectInvocations getURL loc (m1 :: m2 :: rest)).length = 1 ∧
    phishingRedirectInvocations getURL loc (m1 :: m2 :: rest) =
      phishingRedirectInvocations getURL loc [m1] := by
  refine ⟨rfl, rfl, rfl⟩

/--
C6: `shouldInjectProvider` returns true iff all four conditions hold — the
doctype is unset or case-sensitively `"html"`; the top-level element, when
present (non-empty node name), lower-cases to `"html"`; the URL path ends in
neither `.xml` nor `.pdf`; and the deny-list check does not flag the current
URL.
-/
theorem shouldInjectProvider_iff (doc : DomDoc) (loc : DomLocation) :
    shouldInjectProvider doc loc = true ↔
      ((doc.doctype = none ∨ doc.doctype = some "html") ∧
       (doc.documentElementNodeName ≠ "" → strToLower doc.documentElementNodeName = "html") ∧
       ¬(strEndsWith loc.pathname ".xml" = true ∨ strEndsWith loc.pathname ".pdf" = true) ∧
       blacklistedDomainCheck loc.href = false) := by
  cases hd : doc.doctype with
  | none =>
    by_cases he : doc.documentElementNodeName = "" <;>
      simp [shouldInjectProvider, doctypeCheck, suffixCheck, documentElementCheck,
        hd, he, not_or, Bool.and_eq_true, Bool.not_eq_true'] <;>
      tauto
  | some name =>
    by_cases he : doc.documentElementNodeName = "" <;>
      simp [shouldInjectProvider, doctypeCheck, suffixCheck, documentElementCheck,
        hd, he, not_or, Bool.and_eq_true, Bool.not_eq_true'] <;>
      tauto

/-- Witness for C6: an HTML document at `https://example.com/page` activates
the gate. -/
theorem shouldInjectProvider_iff_witness :
    shouldInjectProvider ⟨none, "HTML"⟩
      ⟨"https://example.com/page", "/page", "example.com"⟩ = true :=
  (shouldInjectProvider_iff ⟨none, "HTML"⟩
      ⟨"https://example.com/page", "/page", "example.com"⟩).mpr
    ⟨Or.inl rfl, fun _ => by decide, by decide, by decide⟩

/--
C7: `setupStreams` performs its wiring in the claimed order — page-side
multiplexer, then extension-side multiplexer, then the onboarding sink
binding, then the forwarder connect for each configured forwarded channel
name, then the phishing-notice sink binding; in particular both multiplexers
are created before every forwarder connect.
-/
theorem setupStreams_order :
    stepIndex (SetupStep.createMux MuxSide.page) < stepIndex (SetupStep.createMux MuxSide.ext) ∧
    stepIndex (SetupStep.createMux MuxSide.ext) <
      stepIndex (SetupStep.bindOnboardingSink MuxSide.page "onboarding") ∧
    stepIndex (SetupStep.bindOnboardingSink MuxSide.page "onboarding") <
      stepIndex (SetupStep.forwardPump "provider") ∧
    stepIndex (SetupStep.forwardPump "provider") < stepIndex (SetupStep.forwardPump "publicConfig") ∧
    stepIndex (SetupStep.forwardPump "publicConfig") < stepIndex (SetupStep.forwardPump "cap") ∧
    stepIndex (SetupStep.forwardPump "cap") <
      stepIndex (SetupStep.bindPhishingOnce MuxSide.ext "phishing") ∧
    (∀ name ∈ forwardedChannelNames,
       stepIndex (SetupStep.createMux MuxSide.page) < stepIndex (SetupStep.forwardPump name) ∧
       stepIndex (SetupStep.createMux MuxSide.ext) < stepIndex (SetupStep.forwardPump name)) := by
  decide

/-- Witness for C7's bounded quantifier at the `provider` channel. -/
theorem setupStreams_order_witness :
    stepIndex (SetupStep.createMux MuxSide.page) < stepIndex (SetupStep.forwardPump "provider") ∧
    stepIndex (SetupStep.createMux MuxSide.ext) < stepIndex (SetupStep.forwardPump "provider") :=
  setupStreams_order.2.2.2.2.2.2 "provider" (by decide)

/--
C8: for every URL whose path ends in `.xml` or `.pdf` (the query string is
not part of `window.location.pathname`), `shouldInjectProvider` returns false
regardless of domain and document.
-/
theorem prohibited_suffix_blocks_injection (doc : DomDoc) (loc : DomLocation)
    (h : strEndsWith loc.pathname ".xml" = true ∨ strEndsWith loc.pathname ".pdf" = true) :
    shouldInjectProvider doc loc = false := by
  have hs : suffixCheck loc.pathname = false := by
    rcases h with h | h <;> simp [suffixCheck, h]
  simp [shouldInjectProvider, hs]

/-- Witness for C8 at URL path `/report.pdf`. -/
theorem prohibited_suffix_blocks_injection_witness :
    shouldInjectProvider ⟨none, "html"⟩
      ⟨"https://anydomain.example/report.pdf", "/report.pdf", "anydomain.example"⟩ = false :=
  prohibited_suffix_blocks_injection _ _ (Or.inr (by decide))

/--
C9: for every forwarder pairing, whatever nonempty sequence of close/error
events its two channels produce, the pairing ends the other channel the same
way as the first event and reports exactly one terminal event — never zero,
never more than one — to the caller-supplied completion handler; the step
function is total, so it never throws.
-/
theorem forwarder_single_terminal_report (e : ChanEnd × Option String)
    (rest : List (ChanEnd × Option String)) :
    (runForwarder (e :: rest)).reports = [e.2] ∧
    (runForwarder (e :: rest)).reports.length = 1 ∧
    (runForwarder (e :: rest)).endedSameWay = some (otherEnd e.1, e.2) := by
  have h1 : forwarderStep forwarderInit e = ⟨true, some (otherEnd e.1, e.2), [e.2]⟩ := rfl
  unfold runForwarder
  rw [List.foldl_cons, h1, foldl_forwarderStep_fixed _ _ rfl]
  exact ⟨rfl, rfl, rfl⟩

/--
C10: every current URL that contains no `http://` and no `https://` substring
is reported blacklisted by the deny-list check (the regex built for the very
first entry already fails to match, so the loop returns true), and therefore
`shouldInjectProvider` returns false for every non-http(s) document,
regardless of its domain and document shape.
-/
theorem non_http_url_blacklisted (href : String)
    (h1 : containsSeq "http://".data href.data = false)
    (h2 : containsSeq "https://".data href.data = false) :
    blacklistedDomainCheck href = true ∧
    ∀ (doc : DomDoc) (loc : DomLocation), loc.href = href →
      shouldInjectProvider doc loc = false := by
  have hb : blacklistedDomainCheck href = true := by
    simp [blacklistedDomainCheck, blacklistedDomains, regexTest_eq_false href.data h1 h2]
  exact ⟨hb, fun doc loc hl => by simp [shouldInjectProvider, hl, hb]⟩

/-- Witness for C10 at a `file://` URL. -/
theorem non_http_url_blacklisted_witness :
    blacklistedDomainCheck "file:///home/user/index.html" = true ∧
    shouldInjectProvider ⟨none, "html"⟩
      ⟨"file:///home/user/index.html", "/home/user/index.html", ""⟩ = false :=
  ⟨(non_http_url_blacklisted "file:///home/user/index.html" (by decide) (by decide)).1,
   (non_http_url_blacklisted "file:///home/user/index.html" (by decide) (by decide)).2
     ⟨none, "html"⟩ ⟨"file:///home/user/index.html", "/home/user/index.html", ""⟩ rfl⟩
